import Mathlib

/-!
# Verification of `weighslide.calculate_weighted_windows`

Shallow embedding of the core algorithm of `weighslide/weighslide.py`
(`calculate_weighted_windows`, lines 236-381), which applies a weighted
sliding window over a 1D numeric sequence and reduces each weighted slice
with a statistic (mean, std, sum).

Modelling decisions:
* Numeric values are `ℚ`.  The floating-point NaN used by the source as a
  missing sentinel is modelled as `none : Option ℚ`; NaN-propagation of
  multiplication and the `skipna` semantics of the pandas reductions become
  explicit `Option` handling.
* A pandas `Series` label index is modelled as a `List ℤ` of labels together
  with a value lookup `ℤ → Option ℚ`; `Series.reindex(labels)` keeps the
  value at labels present in the old index and fills `none` (NaN) elsewhere,
  which is exactly the pandas behaviour for a unique old index.
* Python exceptions become `Except WErr`.  The source raises `TypeError` /
  `ValueError` with distinct messages; `WErr` names each raise site.
* `Series.std()` (sample standard deviation, `ddof=1`, `skipna=True`) is
  modelled up to the final square root: `applyStat .std` returns the sample
  variance (`none` exactly where pandas returns NaN).  The square root is a
  strictly monotone bijection on the nonnegative reals and does not affect
  missing-ness, lengths, or equality of results, which is all the
  properties below depend on; `ℚ` has no computable square root.
-/

/-- Error kinds raised by `calculate_weighted_windows`.
`invalidSpec` covers the `TypeError` for a window that is neither string nor
list (line 294) and the `astype(float)` conversion failure for a window
element that is neither numeric nor the ignore marker `"x"`;
`emptyWindow`, `evenWindowLength`, `windowTooLong` are the three
`ValueError`s of lines 296-307; `unknownStatistic` is the `ValueError` of
line 370; `inputTooLarge` is the `ValueError` of line 334;
`sliceLengthMismatch` is the `assert` of line 355. -/
inductive WErr where
  | invalidSpec
  | emptyWindow
  | evenWindowLength
  | windowTooLong
  | unknownStatistic
  | inputTooLarge
  | sliceLengthMismatch
deriving DecidableEq, Repr

/-- The statistic selector: the three recognised values of the
`statistic` argument. -/
inductive Stat where
  | mean
  | std
  | sum
deriving DecidableEq, Repr

/-- One element of a list-form window specification: a numeric weight, the
ignore marker `"x"`, or any other (invalid) value. -/
inductive WinElem where
  | num (q : ℚ)
  | ignore
  | other
deriving DecidableEq, Repr

/-- The `window` argument: a string (list of characters), a Python list, or
a value of any other type. -/
inductive WinSpec where
  | str (cs : List Char)
  | lst (es : List WinElem)
  | other
deriving DecidableEq, Repr

/-- String-form conversion of one window character (lines 274-280):
`"x"` is replaced by NaN (missing); any other character goes through
`astype(float)` — which succeeds exactly on digits, giving the digit value —
and then `(value + 1) / 10`.  A character that is neither a digit nor `x`
makes `astype(float)` raise. -/
def charToWeight (c : Char) : Except WErr (Option ℚ) :=
  if c = 'x' then Except.ok none
  else if c.isDigit then Except.ok (some ((((c.toNat - 48 : ℕ) : ℚ) + 1) / 10))
  else Except.error WErr.invalidSpec

/-- List-form conversion of one window element (lines 284-291): `"x"` is
replaced by NaN (missing), numeric values pass through `astype(float)`
unchanged, anything else makes `astype(float)` raise. -/
def elemToWeight : WinElem → Except WErr (Option ℚ)
  | WinElem.num q => Except.ok (some q)
  | WinElem.ignore => Except.ok none
  | WinElem.other => Except.error WErr.invalidSpec

/-- Convert every character of a string-form window, stopping at the first
failure (the vectorised `astype(float)` of line 278 raises on any invalid
element). -/
def weightsOfChars : List Char → Except WErr (List (Option ℚ))
  | [] => Except.ok []
  | c :: rest =>
      match charToWeight c with
      | Except.error e => Except.error e
      | Except.ok w =>
        match weightsOfChars rest with
        | Except.error e => Except.error e
        | Except.ok ws => Except.ok (w :: ws)

/-- Convert every element of a list-form window, stopping at the first
failure (the vectorised `astype(float)` of line 291 raises on any invalid
element). -/
def weightsOfElems : List WinElem → Except WErr (List (Option ℚ))
  | [] => Except.ok []
  | e :: rest =>
      match elemToWeight e with
      | Except.error e => Except.error e
      | Except.ok w =>
        match weightsOfElems rest with
        | Except.error e => Except.error e
        | Except.ok ws => Except.ok (w :: ws)

/-- Length validation of lines 296-307, in source order: length 0, then even
length, then length above 100. -/
def validateLength (wa : List (Option ℚ)) : Except WErr (List (Option ℚ)) :=
  if wa.length = 0 then Except.error WErr.emptyWindow
  else if wa.length % 2 = 0 then Except.error WErr.evenWindowLength
  else if wa.length > 100 then Except.error WErr.windowTooLong
  else Except.ok wa

/-- The weight-vector builder (lines 270-307): dispatch on the type of
`window`, convert elements, then validate the length. -/
def parseWindow : WinSpec → Except WErr (List (Option ℚ))
  | WinSpec.str cs =>
      match weightsOfChars cs with
      | Except.error e => Except.error e
      | Except.ok wa => validateLength wa
  | WinSpec.lst es =>
      match weightsOfElems es with
      | Except.error e => Except.error e
      | Except.ok wa => validateLength wa
  | WinSpec.other => Except.error WErr.invalidSpec

/-- `neg_range = list(range(-extension_each_side, 0))` (line 313). -/
def negRange (half : ℕ) : List ℤ :=
  (List.range half).map (fun (j : ℕ) => (j : ℤ) - (half : ℤ))

/-- `pos_range = list(np.arange(1, 6) + len(data_series) - 1)` (line 314):
always exactly the five labels `N, N+1, N+2, N+3, N+4`, with the constant 5
independent of the window size. -/
def posRange (N : ℕ) : List ℤ :=
  (List.range 5).map (fun (j : ℕ) => ((j : ℤ) + 1) + (N : ℤ) - 1)

/-- `data_series.index`: the default `RangeIndex` labels `0 .. N-1` of the
input series. -/
def origIndex (N : ℕ) : List ℤ :=
  (List.range N).map (fun (j : ℕ) => (j : ℤ))

/-- `s_index = neg_range + list(data_series.index) + pos_range` (line 316). -/
def sIndex (N half : ℕ) : List ℤ :=
  negRange half ++ origIndex N ++ posRange N

/-- Value of `data_series` at integer label `l`: the element at position `l`
for `0 ≤ l < N`, undefined (NaN) otherwise. -/
def dataVal (data : List ℚ) (l : ℤ) : Option ℚ :=
  if l < 0 then none else data[l.toNat]?

/-- Value of `extend_series = data_series.reindex(s_index)` (line 318) at a
label `l` of `s_index`: labels present in the original index keep their
value, the padding labels are filled with NaN. -/
def extendVal (data : List ℚ) (l : ℤ) : Option ℚ :=
  if l ∈ origIndex data.length then dataVal data l else none

/-- `data_range = list(range(start, end))` with `end = start + window_length`
(lines 345-346). -/
def dataRange (start : ℤ) (L : ℕ) : List ℤ :=
  (List.range L).map (fun (j : ℕ) => start + (j : ℤ))

/-- `orig_sliced = extend_series.reindex(data_range)` (lines 344-350) for
loop position `i`: `start = extend_series.index[i]`, then one value per
label of `data_range`, where labels present in `s_index` keep the value of
`extend_series` and absent labels are filled with NaN. -/
def origSliced (data : List ℚ) (L : ℕ) (i : ℕ) : List (Option ℚ) :=
  let half := (L - 1) / 2
  let start := (sIndex data.length half).getD i 0
  (dataRange start L).map
    (fun l => if l ∈ sIndex data.length half then extendVal data l else none)

/-- NaN-propagating multiplication of `orig_sliced * window_array`
(line 357): the product is missing whenever either factor is. -/
def optMul (v w : Option ℚ) : Option ℚ :=
  match v, w with
  | some a, some b => some (a * b)
  | _, _ => none

/-- The non-missing entries of a weighted slice, in order: the values the
pandas `skipna` reductions actually operate on. -/
def nonMissing (l : List (Option ℚ)) : List ℚ :=
  l.filterMap id

/-- Sample variance with `ddof = 1`, the square of `Series.std()`. -/
def sampleVar (vals : List ℚ) : ℚ :=
  let n : ℚ := vals.length
  let m := vals.sum / n
  (vals.map (fun x => (x - m) ^ 2)).sum / (n - 1)

/-- The statistic dispatch of lines 360-371 on one weighted slice, with the
pandas `skipna=True` semantics: `mean` is NaN for an all-missing slice,
`sum` of an all-missing slice is `0.0` (default `min_count=0`), and `std`
(`ddof=1`) is NaN when fewer than two entries are non-missing.  As noted in
the header, `std` is modelled by the sample variance (its square). -/
def applyStat (st : Stat) (l : List (Option ℚ)) : Option ℚ :=
  let vals := nonMissing l
  match st with
  | Stat.mean =>
      if vals.length = 0 then none else some (vals.sum / (vals.length : ℚ))
  | Stat.std =>
      if vals.length < 2 then none else some (sampleVar vals)
  | Stat.sum => some vals.sum

/-- The data-length guard of lines 330-336: over 1000 entries prints a
performance warning (returned here as a `Bool` flag) and, nested inside that
branch, over 10000 entries aborts with a `ValueError`. -/
def checkInputLength (n : ℕ) : Except WErr Bool :=
  if n > 1000 then
    if n > 10000 then Except.error WErr.inputTooLarge
    else Except.ok true
  else Except.ok false

/-- One iteration of the loop of lines 339-373 at position `i`: slice,
assert the slice length equals the window length (line 355), multiply by the
window, reduce with the statistic.  Returns the row of `df_orig_sliced`, the
row of `df_multiplied`, and the output value. -/
def processPos (data : List ℚ) (wa : List (Option ℚ)) (st : Stat) (i : ℕ) :
    Except WErr (List (Option ℚ) × List (Option ℚ) × Option ℚ) :=
  let s := origSliced data wa.length i
  if s.length = wa.length then
    let m := List.zipWith optMul s wa
    Except.ok (s, m, applyStat st m)
  else Except.error WErr.sliceLengthMismatch

/-- The loop of lines 339-373 over a list of positions, in order, stopping at
the first failure. -/
def forPositions (data : List ℚ) (wa : List (Option ℚ)) (st : Stat) :
    List ℕ → Except WErr (List (List (Option ℚ) × List (Option ℚ) × Option ℚ))
  | [] => Except.ok []
  | i :: rest => do
      let r ← processPos data wa st i
      let rs ← forPositions data wa st rest
      Except.ok (r :: rs)

/-- The result of `calculate_weighted_windows` (line 379): the parsed window
array, the table of raw slices, the table of weighted slices, and the output
series.  The two tables are stored one row per window (the source
accumulates them as columns of a DataFrame). -/
structure WWResult where
  window_array : List (Option ℚ)
  df_orig_sliced : List (List (Option ℚ))
  df_multiplied : List (List (Option ℚ))
  output_series : List (Option ℚ)
deriving DecidableEq, Repr

/-- `calculate_weighted_windows(data_series, window, statistic)`
(lines 236-381), on the values of the input series: build and validate the
window array (lines 270-307), check the input length (lines 330-336), then
run the loop over positions `0 .. N-1` (lines 339-373). -/
def calcWW (data : List ℚ) (window : WinSpec) (st : Stat) :
    Except WErr WWResult :=
  match parseWindow window with
  | Except.error e => Except.error e
  | Except.ok wa =>
    match checkInputLength data.length with
    | Except.error e => Except.error e
    | Except.ok _warned =>
      match forPositions data wa st (List.range data.length) with
      | Except.error e => Except.error e
      | Except.ok rows =>
        Except.ok { window_array := wa,
                    df_orig_sliced := rows.map (fun r => r.1),
                    df_multiplied := rows.map (fun r => r.2.1),
                    output_series := rows.map (fun r => r.2.2) }

/-- The input object handed to `calculate_weighted_windows`: a pandas Series
with its `name` metadata and its values. -/
structure DataSeries where
  name : String
  values : List ℚ
deriving DecidableEq, Repr

/-- `calculate_weighted_windows` including its effect on the caller's input
object: line 268 (`data_series.name = "original data"`) assigns the `name`
attribute of the caller's series in place, before any validation; every
later use of `data_series` (`reindex`, `len`, indexing) is non-mutating.
The first component is the state of the caller's series after the call,
whether the call succeeds or fails. -/
def calcWWObj (s : DataSeries) (window : WinSpec) (st : Stat) :
    DataSeries × Except WErr WWResult :=
  ({ s with name := "original data" }, calcWW s.values window st)

/-- Pure value of a valid list-form window element (its image under
`elemToWeight`). -/
def elemWeightPure : WinElem → Option ℚ
  | WinElem.num q => some q
  | WinElem.ignore => none
  | WinElem.other => none

/-! ## Shared lemmas -/

lemma weightsOfElems_mem_other {es : List WinElem} (h : WinElem.other ∈ es) :
    weightsOfElems es = Except.error WErr.invalidSpec := by
  induction es with
  | nil => cases h
  | cons e rest ih =>
    rcases List.mem_cons.mp h with he | hr
    · subst he; rfl
    · have hrest := ih hr
      cases e with
      | num q => simp only [weightsOfElems, hrest]; rfl
      | ignore => simp only [weightsOfElems, hrest]; rfl
      | other => rfl

lemma weightsOfElems_ok {es : List WinElem} (h : WinElem.other ∉ es) :
    weightsOfElems es = Except.ok (es.map elemWeightPure) := by
  induction es with
  | nil => rfl
  | cons e rest ih =>
    have he : e ≠ WinElem.other := fun hc => h (hc ▸ List.mem_cons_self e rest)
    have hr : WinElem.other ∉ rest := fun hc => h (List.mem_cons_of_mem e hc)
    have hrest := ih hr
    cases e with
    | num q => simp only [weightsOfElems, hrest]; rfl
    | ignore => simp only [weightsOfElems, hrest]; rfl
    | other => exact absurd rfl he

lemma origSliced_length (data : List ℚ) (L : ℕ) (i : ℕ) :
    (origSliced data L i).length = L := by
  unfold origSliced dataRange
  rw [List.length_map, List.length_map, List.length_range]

lemma processPos_eq (data : List ℚ) (wa : List (Option ℚ)) (st : Stat) (i : ℕ) :
    processPos data wa st i =
      Except.ok (origSliced data wa.length i,
        List.zipWith optMul (origSliced data wa.length i) wa,
        applyStat st (List.zipWith optMul (origSliced data wa.length i) wa)) := by
  simp [processPos, origSliced_length]

lemma forPositions_ok (data : List ℚ) (wa : List (Option ℚ)) (st : Stat)
    (l : List ℕ) :
    forPositions data wa st l =
      Except.ok (l.map (fun i =>
        (origSliced data wa.length i,
         List.zipWith optMul (origSliced data wa.length i) wa,
         applyStat st (List.zipWith optMul (origSliced data wa.length i) wa)))) := by
  induction l with
  | nil => rfl
  | cons i rest ih =>
    simp only [forPositions, processPos_eq, ih]
    rfl

lemma mem_origIndex {N : ℕ} {l : ℤ} : l ∈ origIndex N ↔ 0 ≤ l ∧ l < N := by
  simp only [origIndex, List.mem_map, List.mem_range]
  constructor
  · rintro ⟨j, hj, rfl⟩
    omega
  · rintro ⟨h0, hN⟩
    exact ⟨l.toNat, by omega, by omega⟩

lemma mem_sIndex {N half : ℕ} {l : ℤ} :
    l ∈ sIndex N half ↔
      (-(half : ℤ) ≤ l ∧ l < 0) ∨ (0 ≤ l ∧ l < N) ∨ ((N : ℤ) ≤ l ∧ l < (N : ℤ) + 5) := by
  simp only [sIndex, negRange, posRange, List.mem_append, mem_origIndex,
    List.mem_map, List.mem_range]
  constructor
  · rintro ((⟨j, hj, rfl⟩ | h) | ⟨j, hj, rfl⟩)
    · left; omega
    · right; left; exact h
    · right; right; omega
  · rintro (⟨h0, hN⟩ | h | ⟨h0, hN⟩)
    · exact Or.inl (Or.inl ⟨(l + half).toNat, by omega, by omega⟩)
    · exact Or.inl (Or.inr h)
    · exact Or.inr ⟨(l - N).toNat, by omega, by omega⟩

lemma slice_val (data : List ℚ) (half : ℕ) (l : ℤ) :
    (if l ∈ sIndex data.length half then extendVal data l else none) =
      dataVal data l := by
  by_cases hmem : l ∈ sIndex data.length half
  · rw [if_pos hmem]
    unfold extendVal
    by_cases horig : l ∈ origIndex data.length
    · rw [if_pos horig]
    · rw [if_neg horig]
      have h := mem_origIndex.not.mp horig
      unfold dataVal
      by_cases hneg : l < 0
      · rw [if_pos hneg]
      · rw [if_neg hneg]
        have hge : data.length ≤ l.toNat := by omega
        exact (List.getElem?_eq_none hge).symm
  · rw [if_neg hmem]
    have h := mem_sIndex.not.mp hmem
    unfold dataVal
    by_cases hneg : l < 0
    · rw [if_pos hneg]
    · rw [if_neg hneg]
      have hge : data.length ≤ l.toNat := by omega
      exact (List.getElem?_eq_none hge).symm

lemma sIndex_getD {N half i : ℕ} (hi : i < N) :
    (sIndex N half).getD i 0 = (i : ℤ) - (half : ℤ) := by
  have hlen1 : (negRange half).length = half := by
    rw [negRange, List.length_map, List.length_range]
  have hlen2 : (origIndex N).length = N := by
    rw [origIndex, List.length_map, List.length_range]
  have hlen12 : (negRange half ++ origIndex N).length = half + N := by
    rw [List.length_append, hlen1, hlen2]
  rw [List.getD_eq_getElem?_getD, sIndex, List.getElem?_append,
    if_pos (by omega), List.getElem?_append]
  by_cases h : i < half
  · rw [if_pos (by omega), negRange, List.getElem?_map, List.getElem?_range h]
    rfl
  · rw [if_neg (by omega), hlen1, origIndex, List.getElem?_map,
      List.getElem?_range (by omega : i - half < N)]
    show ((i - half : ℕ) : ℤ) = (i : ℤ) - (half : ℤ)
    omega

lemma origSliced_eq (data : List ℚ) (L : ℕ) {i : ℕ} (hi : i < data.length) :
    origSliced data L i =
      (List.range L).map
        (fun (j : ℕ) => dataVal data ((i : ℤ) - (((L - 1) / 2 : ℕ) : ℤ) + (j : ℤ))) := by
  simp only [origSliced, dataRange, sIndex_getD hi, List.map_map]
  exact List.map_congr_left (fun j _ =>
    slice_val data ((L - 1) / 2) ((i : ℤ) - (((L - 1) / 2 : ℕ) : ℤ) + (j : ℤ)))

lemma checkInputLength_le {n : ℕ} (h : n ≤ 1000) :
    checkInputLength n = Except.ok false := by
  unfold checkInputLength
  rw [if_neg (by omega)]

lemma checkInputLength_mid {n : ℕ} (h1 : 1000 < n) (h2 : n ≤ 10000) :
    checkInputLength n = Except.ok true := by
  unfold checkInputLength
  rw [if_pos h1, if_neg (by omega)]

lemma checkInputLength_big {n : ℕ} (h : 10000 < n) :
    checkInputLength n = Except.error WErr.inputTooLarge := by
  unfold checkInputLength
  rw [if_pos (by omega), if_pos h]

/-- The result `calculate_weighted_windows` returns whenever the window
parses and the input is not too long: one slice, one weighted slice and one
statistic value per input position. -/
def expectedResult (data : List ℚ) (wa : List (Option ℚ)) (st : Stat) :
    WWResult :=
  { window_array := wa,
    df_orig_sliced :=
      (List.range data.length).map (fun i => origSliced data wa.length i),
    df_multiplied :=
      (List.range data.length).map
        (fun i => List.zipWith optMul (origSliced data wa.length i) wa),
    output_series :=
      (List.range data.length).map
        (fun i => applyStat st (List.zipWith optMul (origSliced data wa.length i) wa)) }

lemma calcWW_ok {data : List ℚ} {w : WinSpec} {wa : List (Option ℚ)}
    (st : Stat) (hp : parseWindow w = Except.ok wa)
    (hn : data.length ≤ 10000) :
    calcWW data w st = Except.ok (expectedResult data wa st) := by
  have hb : ∃ b, checkInputLength data.length = Except.ok b := by
    by_cases h : data.length ≤ 1000
    · exact ⟨false, checkInputLength_le h⟩
    · exact ⟨true, checkInputLength_mid (by omega) hn⟩
  obtain ⟨b, hb⟩ := hb
  simp only [calcWW, hp, hb, forPositions_ok, expectedResult, List.map_map]
  rfl

lemma calcWW_ok_inv {data : List ℚ} {w : WinSpec} {st : Stat} {r : WWResult}
    (h : calcWW data w st = Except.ok r) :
    ∃ wa, parseWindow w = Except.ok wa ∧ data.length ≤ 10000 ∧
      r = expectedResult data wa st := by
  cases hp : parseWindow w with
  | error e => simp [calcWW, hp] at h
  | ok wa =>
    by_cases hn : data.length ≤ 10000
    · rw [calcWW_ok st hp hn] at h
      injection h with h
      exact ⟨wa, rfl, hn, h.symm⟩
    · simp [calcWW, hp, checkInputLength_big (by omega : 10000 < data.length)] at h

lemma calcWW_big {data : List ℚ} {w : WinSpec} {wa : List (Option ℚ)}
    (st : Stat) (hp : parseWindow w = Except.ok wa)
    (hn : 10000 < data.length) :
    calcWW data w st = Except.error WErr.inputTooLarge := by
  simp only [calcWW, hp, checkInputLength_big hn]

lemma parseWindow_lst_mem_other {es : List WinElem} (h : WinElem.other ∈ es) :
    parseWindow (WinSpec.lst es) = Except.error WErr.invalidSpec := by
  simp [parseWindow, weightsOfElems_mem_other h]

lemma parseWindow_lst_even {es : List WinElem} (h : WinElem.other ∉ es)
    (hne : es ≠ []) (hev : es.length % 2 = 0) :
    parseWindow (WinSpec.lst es) = Except.error WErr.evenWindowLength := by
  simp only [parseWindow, weightsOfElems_ok h, validateLength, List.length_map]
  rw [if_neg (fun hc => hne (List.length_eq_zero.mp hc)), if_pos hev]

lemma parseWindow_lst_tooLong {es : List WinElem} (h : WinElem.other ∉ es)
    (hodd : es.length % 2 = 1) (hlen : 100 < es.length) :
    parseWindow (WinSpec.lst es) = Except.error WErr.windowTooLong := by
  simp only [parseWindow, weightsOfElems_ok h, validateLength, List.length_map]
  rw [if_neg (by omega), if_neg (by omega), if_pos hlen]

/-! ## Claims -/

/-- C1: Any weighted-slice position where the source value or the weight is
the missing sentinel is excluded from the reduction statistic rather than
counted as zero: the elementwise product with a missing operand is missing,
every statistic depends only on the non-missing weighted entries, sum over
the weighted values `[2, missing, 4]` is `6` (not an error and not NaN),
and the mean over them is `3` (not `2`, which counting the missing entry as
zero would give). -/
theorem claim_C1_missing_excluded :
    (∀ w : Option ℚ, optMul none w = none)
    ∧ (∀ v : Option ℚ, optMul v none = none)
    ∧ (∀ (st : Stat) (l : List (Option ℚ)),
        applyStat st l = applyStat st ((nonMissing l).map some))
    ∧ applyStat Stat.sum [some 2, none, some 4] = some 6
    ∧ applyStat Stat.mean [some 2, none, some 4] = some 3 := by
  refine ⟨fun w => rfl, fun v => by cases v <;> rfl, fun st l => ?_,
    by norm_num [applyStat, nonMissing, List.filterMap_cons],
    by norm_num [applyStat, nonMissing, List.filterMap_cons]⟩
  have h : nonMissing ((nonMissing l).map some) = nonMissing l := by
    unfold nonMissing
    rw [List.filterMap_map]
    simp [Function.comp]
  cases st <;> simp [applyStat, h]

/-- C2: For every input sequence of length `N`, window length `L` odd with
`half = (L-1)/2`, and position `i < N`, the extracted slice has exactly
length `L` and holds the input values at original indices
`i - half .. i + half` with out-of-range indices yielding the missing
sentinel — `dataVal` is `none` outside `0 .. N-1` — so the slice-length
assertion of line 355 never fails, including when `half > 5` despite the
fixed constant 5 in `pos_range`. -/
theorem claim_C2_slice_correct (data : List ℚ) (L : ℕ) (_hL : L % 2 = 1)
    (i : ℕ) (hi : i < data.length) :
    (origSliced data L i).length = L
    ∧ origSliced data L i =
        (List.range L).map
          (fun (j : ℕ) =>
            dataVal data ((i : ℤ) - (((L - 1) / 2 : ℕ) : ℤ) + (j : ℤ)))
    ∧ ∀ (st : Stat) (wa : List (Option ℚ)), wa.length = L →
        processPos data wa st i ≠ Except.error WErr.sliceLengthMismatch := by
  refine ⟨origSliced_length data L i, origSliced_eq data L hi,
    fun st wa hwa h => ?_⟩
  simp [processPos_eq] at h

/-- Witness for C2 at `data = [5, 7]`, `L = 13` (so `half = 6 > 5`),
`i = 1`. -/
theorem claim_C2_slice_correct_witness :
    (13 % 2 = 1 ∧ 1 < ([5, 7] : List ℚ).length)
    ∧ (origSliced [5, 7] 13 1).length = 13
    ∧ processPos [5, 7] (List.replicate 13 (some 1)) Stat.sum 1 ≠
        Except.error WErr.sliceLengthMismatch :=
  ⟨⟨rfl, by decide⟩,
   (claim_C2_slice_correct [5, 7] 13 rfl 1 (by decide)).1,
   (claim_C2_slice_correct [5, 7] 13 rfl 1 (by decide)).2.2 Stat.sum
     (List.replicate 13 (some 1)) (by decide)⟩

/-- C3: The weight-vector builder maps each digit character `d` to the
weight `(d+1)/10` and the ignore character `x` to the missing sentinel;
`"494"` yields exactly `[0.5, 1.0, 0.5]` and `"4x4"` yields exactly
`[0.5, missing, 0.5]`. -/
theorem claim_C3_string_weights :
    (∀ c : Char, c.isDigit →
        charToWeight c =
          Except.ok (some ((((c.toNat - 48 : ℕ) : ℚ) + 1) / 10)))
    ∧ charToWeight 'x' = Except.ok none
    ∧ parseWindow (WinSpec.str ['4', '9', '4']) =
        Except.ok [some (1 / 2 : ℚ), some 1, some (1 / 2 : ℚ)]
    ∧ parseWindow (WinSpec.str ['4', 'x', '4']) =
        Except.ok [some (1 / 2 : ℚ), none, some (1 / 2 : ℚ)] := by
  have h494 : parseWindow (WinSpec.str ['4', '9', '4']) =
      Except.ok [some ((((4 : ℕ) : ℚ) + 1) / 10), some ((((9 : ℕ) : ℚ) + 1) / 10),
        some ((((4 : ℕ) : ℚ) + 1) / 10)] := rfl
  have h4x4 : parseWindow (WinSpec.str ['4', 'x', '4']) =
      Except.ok [some ((((4 : ℕ) : ℚ) + 1) / 10), none,
        some ((((4 : ℕ) : ℚ) + 1) / 10)] := rfl
  refine ⟨fun c hc => ?_, rfl, by rw [h494]; norm_num, by rw [h4x4]; norm_num⟩
  have hx : c ≠ 'x' := by
    intro h
    rw [h] at hc
    exact absurd hc (by decide)
  unfold charToWeight
  rw [if_neg hx, if_pos hc]

/-- Witness for C3 at the digit `7`. -/
theorem claim_C3_string_weights_witness :
    Char.isDigit '7' = true
    ∧ charToWeight '7' =
        Except.ok (some (((('7'.toNat - 48 : ℕ) : ℚ) + 1) / 10)) :=
  ⟨by decide, claim_C3_string_weights.1 '7' (by decide)⟩

/-- C4: Whenever the call succeeds, the output series has the same length,
indexing and ordering as the input: its length is the input length and the
entry at output position `i` is the statistic of the weighted slice centred
at input position `i`. -/
theorem claim_C4_output_matches_input (data : List ℚ) (w : WinSpec)
    (st : Stat) (r : WWResult) (h : calcWW data w st = Except.ok r) :
    r.output_series.length = data.length
    ∧ ∀ i : ℕ, i < data.length →
        r.output_series[i]? =
          some (applyStat st
            (List.zipWith optMul (origSliced data r.window_array.length i)
              r.window_array)) := by
  obtain ⟨wa, hp, hn, rfl⟩ := calcWW_ok_inv h
  constructor
  · simp [expectedResult]
  · intro i hi
    simp [expectedResult, List.getElem?_map, List.getElem?_range hi]

/-- Witness for C4 at `data = [1, 2]`, window `[2, "x", 2]`, statistic
`sum`. -/
theorem claim_C4_output_matches_input_witness :
    calcWW [1, 2] (WinSpec.lst [WinElem.num 2, WinElem.ignore, WinElem.num 2])
        Stat.sum =
      Except.ok (expectedResult [1, 2] [some 2, none, some 2] Stat.sum)
    ∧ (expectedResult [1, 2] [some 2, none, some 2] Stat.sum).output_series.length
        = 2 :=
  ⟨calcWW_ok Stat.sum rfl (by decide),
   (claim_C4_output_matches_input [1, 2]
      (WinSpec.lst [WinElem.num 2, WinElem.ignore, WinElem.num 2]) Stat.sum
      (expectedResult [1, 2] [some 2, none, some 2] Stat.sum)
      (calcWW_ok Stat.sum rfl (by decide))).1⟩

/-- C5: The builder fails with `invalidSpec` when the specification is
neither a string nor a list, or when a list element is neither numeric nor
the ignore marker (the element conversion runs before any length check);
otherwise the length is validated in order: length 0 fails `emptyWindow`,
then even length fails `evenWindowLength`, then length above 100 fails
`windowTooLong`. -/
theorem claim_C5_validation_order :
    parseWindow WinSpec.other = Except.error WErr.invalidSpec
    ∧ (∀ es : List WinElem, WinElem.other ∈ es →
        parseWindow (WinSpec.lst es) = Except.error WErr.invalidSpec)
    ∧ parseWindow (WinSpec.lst []) = Except.error WErr.emptyWindow
    ∧ (∀ es : List WinElem, WinElem.other ∉ es → es ≠ [] →
        es.length % 2 = 0 →
        parseWindow (WinSpec.lst es) = Except.error WErr.evenWindowLength)
    ∧ (∀ es : List WinElem, WinElem.other ∉ es → es.length % 2 = 1 →
        100 < es.length →
        parseWindow (WinSpec.lst es) = Except.error WErr.windowTooLong) :=
  ⟨rfl, fun _ h => parseWindow_lst_mem_other h, rfl,
   fun _ h hne hev => parseWindow_lst_even h hne hev,
   fun _ h hodd hlen => parseWindow_lst_tooLong h hodd hlen⟩

/-- Witness for C5: an invalid element beats the length checks, an even
window of valid elements fails as even, and a valid odd window of length
101 fails as too long. -/
theorem claim_C5_validation_order_witness :
    parseWindow (WinSpec.lst [WinElem.other]) = Except.error WErr.invalidSpec
    ∧ parseWindow (WinSpec.lst [WinElem.num 1, WinElem.num 2]) =
        Except.error WErr.evenWindowLength
    ∧ parseWindow (WinSpec.lst (List.replicate 101 (WinElem.num 1))) =
        Except.error WErr.windowTooLong :=
  ⟨claim_C5_validation_order.2.1 [WinElem.other] (by decide),
   claim_C5_validation_order.2.2.2.1 [WinElem.num 1, WinElem.num 2]
     (by decide) (by decide) (by decide),
   claim_C5_validation_order.2.2.2.2 (List.replicate 101 (WinElem.num 1))
     (by decide) (by decide) (by decide)⟩

/-- C6: Before the per-position loop, an input length over 1000 yields a
non-fatal performance warning (the `Bool` flag) and computation proceeds;
an input length over 10000 makes the call fail with `inputTooLarge`; length
10001 fails while length 10000 succeeds (warning only). -/
theorem claim_C6_input_length_guard :
    (∀ n : ℕ, n ≤ 1000 → checkInputLength n = Except.ok false)
    ∧ (∀ n : ℕ, 1000 < n → n ≤ 10000 → checkInputLength n = Except.ok true)
    ∧ (∀ n : ℕ, 10000 < n →
        checkInputLength n = Except.error WErr.inputTooLarge)
    ∧ (∀ (data : List ℚ) (w : WinSpec) (st : Stat) (wa : List (Option ℚ)),
        parseWindow w = Except.ok wa → 10000 < data.length →
        calcWW data w st = Except.error WErr.inputTooLarge)
    ∧ (∀ (data : List ℚ) (w : WinSpec) (st : Stat) (wa : List (Option ℚ)),
        parseWindow w = Except.ok wa → data.length ≤ 10000 →
        calcWW data w st = Except.ok (expectedResult data wa st)) :=
  ⟨fun _ h => checkInputLength_le h,
   fun _ h1 h2 => checkInputLength_mid h1 h2,
   fun _ h => checkInputLength_big h,
   fun _ _ st _ hp hn => calcWW_big st hp hn,
   fun _ _ st _ hp hn => calcWW_ok st hp hn⟩

/-- Witness for C6: length 10001 fails with `inputTooLarge`, length 10000
succeeds. -/
theorem claim_C6_input_length_guard_witness :
    calcWW (List.replicate 10001 (1 : ℚ)) (WinSpec.lst [WinElem.num 1])
        Stat.sum = Except.error WErr.inputTooLarge
    ∧ calcWW (List.replicate 10000 (1 : ℚ)) (WinSpec.lst [WinElem.num 1])
        Stat.sum =
      Except.ok
        (expectedResult (List.replicate 10000 (1 : ℚ)) [some 1] Stat.sum) :=
  ⟨claim_C6_input_length_guard.2.2.2.1 (List.replicate 10001 (1 : ℚ))
     (WinSpec.lst [WinElem.num 1]) Stat.sum [some 1] rfl
     (by rw [List.length_replicate]; omega),
   claim_C6_input_length_guard.2.2.2.2 (List.replicate 10000 (1 : ℚ))
     (WinSpec.lst [WinElem.num 1]) Stat.sum [some 1] rfl
     (by rw [List.length_replicate])⟩

/-- C7 counterexample: `calculate_weighted_windows` takes no override
configuration flags — its parameters are the data, the window and the
statistic — so a window of length 101 fails with `windowTooLong`
unconditionally; no argument setting avoids it (the source comment says the
only bypass is editing the `elif` out). -/
theorem claim_C7_counterexample :
    calcWW [1] (WinSpec.lst (List.replicate 101 (WinElem.num 1))) Stat.sum =
      Except.error WErr.windowTooLong := by
  have h := @parseWindow_lst_tooLong (List.replicate 101 (WinElem.num 1))
    (by decide) (by decide) (by decide)
  simp only [calcWW, h]

/-- C7 (amended): the core operation accepts no override flags; the two
ceilings are unconditional: every valid odd window longer than 100 fails
with `windowTooLong` on any data and statistic, and every parseable window
with input longer than 10000 fails with `inputTooLarge`. -/
theorem claim_C7_no_override :
    (∀ (es : List WinElem) (data : List ℚ) (st : Stat),
        WinElem.other ∉ es → es.length % 2 = 1 → 100 < es.length →
        calcWW data (WinSpec.lst es) st = Except.error WErr.windowTooLong)
    ∧ (∀ (data : List ℚ) (w : WinSpec) (st : Stat) (wa : List (Option ℚ)),
        parseWindow w = Except.ok wa → 10000 < data.length →
        calcWW data w st = Except.error WErr.inputTooLarge) := by
  refine ⟨fun es data st h hodd hlen => ?_,
    fun _ _ st _ hp hn => calcWW_big st hp hn⟩
  simp [calcWW, parseWindow_lst_tooLong h hodd hlen]

/-- Witness for the amended C7 at a window of length 103 and at a long
input. -/
theorem claim_C7_no_override_witness :
    calcWW [2] (WinSpec.lst (List.replicate 103 (WinElem.num 1))) Stat.mean =
      Except.error WErr.windowTooLong
    ∧ calcWW (List.replicate 10002 (1 : ℚ)) (WinSpec.lst [WinElem.num 1])
        Stat.mean = Except.error WErr.inputTooLarge :=
  ⟨claim_C7_no_override.1 (List.replicate 103 (WinElem.num 1)) [2] Stat.mean
     (by decide) (by decide) (by decide),
   claim_C7_no_override.2 (List.replicate 10002 (1 : ℚ))
     (WinSpec.lst [WinElem.num 1]) Stat.mean [some 1] rfl
     (by rw [List.length_replicate]; omega)⟩

/-- C8: The computation depends on the window specification only through
its parsed weight vector, so a list specification that parses to the same
weights as a string specification produces an identical result on every
input and statistic; in particular `"9x9"` and `[1.0, missing, 1.0]` parse
identically. -/
theorem claim_C8_string_list_roundtrip (data : List ℚ) (st : Stat)
    (s1 s2 : WinSpec) (h : parseWindow s1 = parseWindow s2) :
    calcWW data s1 st = calcWW data s2 st
    ∧ parseWindow (WinSpec.str ['9', 'x', '9']) =
        parseWindow (WinSpec.lst [WinElem.num 1, WinElem.ignore, WinElem.num 1]) := by
  have h9x9 : parseWindow (WinSpec.str ['9', 'x', '9']) =
      Except.ok [some ((((9 : ℕ) : ℚ) + 1) / 10), none,
        some ((((9 : ℕ) : ℚ) + 1) / 10)] := rfl
  have hlst : parseWindow
      (WinSpec.lst [WinElem.num 1, WinElem.ignore, WinElem.num 1]) =
      Except.ok [some 1, none, some 1] := rfl
  refine ⟨?_, by rw [h9x9, hlst]; norm_num⟩
  unfold calcWW
  rw [h]

/-- Witness for C8: the string `"9x9"` and the list `[1.0, missing, 1.0]`
give identical results on `[1, 2, 3]` with `mean`. -/
theorem claim_C8_string_list_roundtrip_witness :
    parseWindow (WinSpec.str ['9', 'x', '9']) =
      parseWindow (WinSpec.lst [WinElem.num 1, WinElem.ignore, WinElem.num 1])
    ∧ calcWW [1, 2, 3] (WinSpec.str ['9', 'x', '9']) Stat.mean =
      calcWW [1, 2, 3]
        (WinSpec.lst [WinElem.num 1, WinElem.ignore, WinElem.num 1])
        Stat.mean := by
  have h9x9 : parseWindow (WinSpec.str ['9', 'x', '9']) =
      Except.ok [some ((((9 : ℕ) : ℚ) + 1) / 10), none,
        some ((((9 : ℕ) : ℚ) + 1) / 10)] := rfl
  have hlst : parseWindow
      (WinSpec.lst [WinElem.num 1, WinElem.ignore, WinElem.num 1]) =
      Except.ok [some 1, none, some 1] := rfl
  have heq : parseWindow (WinSpec.str ['9', 'x', '9']) =
      parseWindow (WinSpec.lst [WinElem.num 1, WinElem.ignore, WinElem.num 1]) := by
    rw [h9x9, hlst]; norm_num
  exact ⟨heq,
    (claim_C8_string_list_roundtrip [1, 2, 3] Stat.mean
      (WinSpec.str ['9', 'x', '9'])
      (WinSpec.lst [WinElem.num 1, WinElem.ignore, WinElem.num 1]) heq).1⟩

/-- C9 counterexample: the input series object is not unchanged — a call on
a series named `"mydata"` leaves the caller's object with a different
`name` (line 268 overwrites it in place before any validation). -/
theorem claim_C9_counterexample :
    (calcWWObj ⟨"mydata", [1]⟩ (WinSpec.lst [WinElem.num 1]) Stat.sum).1 ≠
      ⟨"mydata", [1]⟩ := by
  decide

/-- C9 (amended): the values and their ordering of the input series are
unchanged by every call, successful or failing — the computation only reads
them — but the `name` metadata of the caller's series object is overwritten
to `"original data"`. -/
theorem claim_C9_values_immutable (s : DataSeries) (w : WinSpec) (st : Stat) :
    (calcWWObj s w st).1.values = s.values
    ∧ (calcWWObj s w st).1.name = "original data" :=
  ⟨rfl, rfl⟩

/-- C10: A weighted slice with no non-missing entries reduces to `0.0`
under `sum` and to missing under `mean`, without failing; a weighted slice
with fewer than two non-missing entries reduces to missing under `std`
(sample standard deviation).  With the all-ignored window `"xxx"` the whole
call succeeds with outputs all `0` (sum) resp. all missing (mean, std). -/
theorem claim_C10_degenerate_stats :
    (∀ l : List (Option ℚ), nonMissing l = [] →
        applyStat Stat.sum l = some 0 ∧ applyStat Stat.mean l = none)
    ∧ (∀ l : List (Option ℚ), (nonMissing l).length < 2 →
        applyStat Stat.std l = none)
    ∧ Except.map (fun r => r.output_series)
        (calcWW [1, 2, 3] (WinSpec.str ['x', 'x', 'x']) Stat.sum) =
        Except.ok [some 0, some 0, some 0]
    ∧ Except.map (fun r => r.output_series)
        (calcWW [1, 2, 3] (WinSpec.str ['x', 'x', 'x']) Stat.mean) =
        Except.ok [none, none, none]
    ∧ Except.map (fun r => r.output_series)
        (calcWW [1, 2, 3] (WinSpec.str ['x', 'x', 'x']) Stat.std) =
        Except.ok [none, none, none] := by
  refine ⟨fun l h => ⟨?_, ?_⟩, fun l h => ?_, rfl, rfl, rfl⟩
  · simp [applyStat, h]
  · simp [applyStat, h]
  · simp [applyStat, if_pos h]

/-- Witness for C10 at the all-missing slice `[none]` and the
single-value slice `[some 2]`. -/
theorem claim_C10_degenerate_stats_witness :
    (nonMissing [none] = [] ∧ applyStat Stat.sum [none] = some 0
      ∧ applyStat Stat.mean [none] = none)
    ∧ ((nonMissing [some 2]).length < 2 ∧ applyStat Stat.std [some 2] = none) :=
  ⟨⟨by decide, (claim_C10_degenerate_stats.1 [none] (by decide)).1,
     (claim_C10_degenerate_stats.1 [none] (by decide)).2⟩,
   ⟨by decide, claim_C10_degenerate_stats.2.1 [some 2] (by decide)⟩⟩
